import Mathlib

/-!
Shallow embedding of the `AccountService` of the authentication repository
(package `services`, file with `AccountService` methods, together with the
repository/adapter contracts of `internal/models/account.go`).

Modelling conventions:
* Go pointers that may be nil are `Option`; Go's `new(T)` yields a non-nil
  pointer to the zero value, modelled as `some` of the zero value.
* Fallible repository/adapter calls are oracles: an environment record holds
  the outcome each call would produce (`none` = the call returns an error).
* `time.Time` is modelled as `Nat`.
* Each service method returns, besides its result, a trace of the events it
  performed (store calls, rollback/commit), so that ordering and atomicity
  claims are statements about the trace.
* `sync.WaitGroup` in `genAuthOutput` is modelled by counting the `Add` and
  `Done` calls that can execute before `wg.Wait()` returns: `Wait` returns
  exactly when the counter reaches zero, and a `defer wg.Done()` in the
  function body itself can only run after the function returns, hence never
  before `Wait`.  If the counter cannot reach zero the call diverges,
  modelled by the distinguished outcome `Outcome.diverges`.
-/

/-- Outcome of a service call: a value, an error (Go `errors.New` message),
divergence (a call that never returns), or a runtime panic. -/
inductive Outcome (α : Type) where
  | ok (val : α)
  | err (msg : String)
  | diverges
  | panicked
deriving DecidableEq, Repr

/-- Record type `models.GetManyAccountsByProviderOutput`. -/
structure GetManyAccountsByProviderOutput where
  accountId : String
  providerId : String
  providerType : String
  email : String
deriving DecidableEq, Repr

/-- Record type `adapters.ExchangeCodeOutput`: result of the provider code exchange. -/
structure ExchangeCodeOutput where
  accessToken : String
  refreshToken : String
  expiresAt : Nat
  scopes : List String
deriving DecidableEq, Repr

/-- Record type `adapters.GetUserDataOutput`: provider profile data. -/
structure ProviderUserData where
  id : String
  email : String
  isEmailVerified : Bool
deriving DecidableEq, Repr

/-- Record type `models.CreateAccountSignInProvider`: the identity payload passed to
`AccountRepository.Create`. -/
structure CreateAccountSignInProvider where
  id : String
  type : String
  accessToken : String
  refreshToken : Option String
  expiresAt : Nat
deriving DecidableEq, Repr

/-- Record type `adapters.GenAccessOutput`. -/
structure GenAccessOutput where
  accessToken : String
  expiresAt : Nat
deriving DecidableEq, Repr

/-- Record type `models.CreateRefreshTokenOutput`. -/
structure CreateRefreshTokenOutput where
  refreshToken : String
deriving DecidableEq, Repr

/-- Record type `models.AuthOutput`. -/
structure AuthOutput where
  refreshToken : String
  accessToken : String
  expiresAt : Nat
deriving DecidableEq, Repr

/-- Record type `models.RefreshAccountTokenOutput`. -/
structure RefreshAccountTokenOutput where
  accessToken : String
  expiresAt : Nat
deriving DecidableEq, Repr

/-! ## genAuthOutput (credential issuance) -/

/-- Oracle for the two concurrent sub-operations of `genAuthOutput`:
the refresh-token store write and the access-token mint (`none` = the call
errors).  `accessWroteLast` fixes the schedule of the two goroutines'
last-write-wins race on the single shared `err` variable. -/
structure GenAuthEnv where
  refreshCreate : Option CreateRefreshTokenOutput
  genAccess : Option GenAccessOutput
  accessWroteLast : Bool
deriving Repr

/-- Number of `wg.Add(1)` calls executed in `genAuthOutput` before
`wg.Wait()`: one for the access-token goroutine, plus one when a refresh
token is requested. -/
def wgAddCount (refresh : Bool) : Nat :=
  if refresh then 2 else 1

/-- Number of `wg.Done()` calls that can execute before `wg.Wait()` returns.
Both `wg.Done()` calls in the source are written `defer wg.Done()` in
`genAuthOutput` itself (not inside the spawned goroutines), so they run only
when `genAuthOutput` returns — which is after `wg.Wait()`.  Hence none can
run before `Wait`. -/
def wgDoneCountBeforeWait (_refresh : Bool) : Nat := 0

/-- Model of `AccountService.genAuthOutput`.  `wg.Wait()` returns only when the
WaitGroup counter reaches zero; otherwise the call blocks forever.  The code
after `wg.Wait()` is translated for completeness but is unreachable. -/
def genAuthOutput (refresh : Bool) (env : GenAuthEnv) : Outcome AuthOutput :=
  if wgDoneCountBeforeWait refresh < wgAddCount refresh then
    Outcome.diverges
  else
    -- unreachable: the logic after wg.Wait() in the source
    let errSet : Bool :=
      if env.accessWroteLast then env.genAccess.isNone
      else if refresh then env.refreshCreate.isNone
      else env.genAccess.isNone
    if errSet then
      Outcome.err "fail to generate auth output"
    else
      match env.genAccess, env.refreshCreate with
      | some access, some refreshTok =>
          Outcome.ok ⟨refreshTok.refreshToken, access.accessToken, access.expiresAt⟩
      | _, _ => Outcome.panicked  -- nil dereference building the output

/-! ## Candidate scan and account resolution (createFromExternal) -/

/-- The zero value of `models.GetManyAccountsByProviderOutput`, the struct
value that Go's `new(...)` allocates and points to. -/
def zeroGetManyRec : GetManyAccountsByProviderOutput := ⟨"", "", "", ""⟩

/-- The candidate scan loop of `createFromExternal`:

    for _, v := range relatedAccounts {
      if v.Email == providerData.Email { sameEmail = &v }
      if v.ProviderId == providerData.Id && v.ProviderType == i.providerType { sameProvider = &v }
      if sameEmail != nil && sameProvider != nil { break }
    }

Pointers are `Option`: `none` is a nil pointer.  The callers initialise both
slots with `new(...)`, i.e. `some zeroGetManyRec`. -/
def scanRelated (providerId providerType email : String)
    (sameEmail sameProvider : Option GetManyAccountsByProviderOutput) :
    List GetManyAccountsByProviderOutput →
    Option GetManyAccountsByProviderOutput × Option GetManyAccountsByProviderOutput
  | [] => (sameEmail, sameProvider)
  | v :: rest =>
    let sameEmail' := if v.email = email then some v else sameEmail
    let sameProvider' :=
      if v.providerId = providerId ∧ v.providerType = providerType then some v else sameProvider
    if sameEmail'.isSome ∧ sameProvider'.isSome then (sameEmail', sameProvider')
    else scanRelated providerId providerType email sameEmail' sameProvider' rest

/-- The two `if` statements after the scan that pick `accountId`
(`""` when neither fires): same-email link requires `sameProvider == nil`,
and a non-nil `sameProvider` always overwrites. -/
def relateAccountId (providerType : String)
    (sameEmail sameProvider : Option GetManyAccountsByProviderOutput) : String :=
  let afterEmailRule : String :=
    match sameEmail, sameProvider with
    | some se, none => if se.providerType ≠ providerType then se.accountId else ""
    | _, _ => ""
  match sameProvider with
  | some sp => sp.accountId
  | none => afterEmailRule

/-- Account resolution over a non-empty candidate list: the scan initialised
with `new(...)` pointers followed by `relateAccountId`.  Result `""` means
the flow fails with "fail to relate account". -/
def resolveRelated (providerId providerType email : String)
    (relatedAccounts : List GetManyAccountsByProviderOutput) : String :=
  let scanned :=
    scanRelated providerId providerType email
      (some zeroGetManyRec) (some zeroGetManyRec) relatedAccounts
  relateAccountId providerType scanned.1 scanned.2

/-! ## createFromExternal -/

/-- Events of the external-provider sign-in flow.  `st…` events mark the
completion of the spec's state-machine steps; `createCall` records the single
account-store write with its full payload; `issueCall` records the call into
credential issuance with the arguments the source passes. -/
inductive FlowEv where
  | stExchanged
  | stScopesOk
  | stProfileOk
  | stIdentitiesLoaded
  | stResolved (accountId : String) (isFirstAccess : Bool)
  | createCall (email : String) (providers : List CreateAccountSignInProvider)
  | issueCall (accountId : String) (isFirstAccess : Bool) (refresh : Bool)
  | rollback
  | commit
deriving DecidableEq, Repr

/-- Oracle for the adapter and store calls of `createFromExternal`
(`none` = the call errors). -/
structure ExternalEnv where
  exchangeCode : Option ExchangeCodeOutput
  hasRequiredScopes : List String → Bool
  getUserData : Option ProviderUserData
  getManyByProvider : Option (List GetManyAccountsByProviderOutput)
  createAccountId : Option String

/-- Model of `AccountService.createFromExternal`: code exchange, scope check, profile
fetch with verified-email check, identity lookup, account resolution, then
credential issuance (`genAuthOutput`, always with `refresh = true`; the
source passes no transaction handle to it). -/
def createFromExternal (providerType : String) (env : ExternalEnv) (genv : GenAuthEnv) :
    Outcome AuthOutput × List FlowEv :=
  match env.exchangeCode with
  | none => (Outcome.err "fail to exchange code", [FlowEv.rollback])
  | some ec =>
    if env.hasRequiredScopes ec.scopes = false then
      (Outcome.err "missing scopes", [FlowEv.stExchanged, FlowEv.rollback])
    else
      match env.getUserData with
      | none =>
        (Outcome.err "fail to get external user data",
         [FlowEv.stExchanged, FlowEv.stScopesOk, FlowEv.rollback])
      | some pd =>
        if pd.isEmailVerified = false then
          (Outcome.err "unverified email",
           [FlowEv.stExchanged, FlowEv.stScopesOk, FlowEv.rollback])
        else
          match env.getManyByProvider with
          | none =>
            (Outcome.err "fail to get related accounts",
             [FlowEv.stExchanged, FlowEv.stScopesOk, FlowEv.stProfileOk, FlowEv.rollback])
          | some relatedAccounts =>
            if 0 < relatedAccounts.length then
              let accountId := resolveRelated pd.id providerType pd.email relatedAccounts
              if accountId = "" then
                (Outcome.err "fail to relate account",
                 [FlowEv.stExchanged, FlowEv.stScopesOk, FlowEv.stProfileOk,
                  FlowEv.stIdentitiesLoaded, FlowEv.rollback])
              else
                (genAuthOutput true genv,
                 [FlowEv.stExchanged, FlowEv.stScopesOk, FlowEv.stProfileOk,
                  FlowEv.stIdentitiesLoaded, FlowEv.stResolved accountId false,
                  FlowEv.issueCall accountId false true])
            else
              match env.createAccountId with
              | none =>
                (Outcome.err "fail to create account",
                 [FlowEv.stExchanged, FlowEv.stScopesOk, FlowEv.stProfileOk,
                  FlowEv.stIdentitiesLoaded, FlowEv.rollback])
              | some newId =>
                (genAuthOutput true genv,
                 [FlowEv.stExchanged, FlowEv.stScopesOk, FlowEv.stProfileOk,
                  FlowEv.stIdentitiesLoaded,
                  FlowEv.createCall pd.email
                    [⟨pd.id, providerType, ec.accessToken, some ec.refreshToken, ec.expiresAt⟩],
                  FlowEv.stResolved newId true,
                  FlowEv.issueCall newId true true])

/-- Model of `AccountService.CreateFromGoogleProvider`: open a transaction, then run
the shared flow with provider type `"GOOGLE"`. -/
def CreateFromGoogleProvider (beginOk : Bool) (env : ExternalEnv) (genv : GenAuthEnv) :
    Outcome AuthOutput × List FlowEv :=
  if beginOk then createFromExternal "GOOGLE" env genv
  else (Outcome.err "fail to create transaction", [])

/-- Model of `AccountService.CreateFromFacebookProvider`: open a transaction, then run
the shared flow with provider type `"FACEBOOK"`. -/
def CreateFromFacebookProvider (beginOk : Bool) (env : ExternalEnv) (genv : GenAuthEnv) :
    Outcome AuthOutput × List FlowEv :=
  if beginOk then createFromExternal "FACEBOOK" env genv
  else (Outcome.err "fail to create transaction", [])

/-- Step tag of a trace event, for the spec's state-machine ordering;
store writes and rollback/commit carry no tag. -/
def tagOfEv : FlowEv → Option Nat
  | FlowEv.stExchanged => some 0
  | FlowEv.stScopesOk => some 1
  | FlowEv.stProfileOk => some 2
  | FlowEv.stIdentitiesLoaded => some 3
  | FlowEv.stResolved _ _ => some 4
  | FlowEv.issueCall _ _ _ => some 5
  | _ => none

/-- The step tags a trace passed through, in order. -/
def stepTags (t : List FlowEv) : List Nat := t.filterMap tagOfEv

/-- The canonical step order of the external sign-in state machine:
code-exchange, scope-check, profile-fetch, identity-lookup,
account-resolution, credential-issuance. -/
def canonicalSteps : List Nat := [0, 1, 2, 3, 4, 5]

/-- Does the trace contain an account-store write? -/
def hasCreateCall (t : List FlowEv) : Bool :=
  t.any fun e =>
    match e with
    | FlowEv.createCall _ _ => true
    | _ => false

/-! ## Passwordless flows (CreateFromEmailProvider / CreateFromPhoneProvider) -/

/-- Record type `models.GetAccountByEmailOutput`. -/
structure GetAccountByEmailOutput where
  accountId : String
  email : String
deriving DecidableEq, Repr

/-- Record type `models.GetAccountByPhoneOutput`. -/
structure GetAccountByPhoneOutput where
  accountId : String
  countryCode : String
  number : String
deriving DecidableEq, Repr

/-- Result of `MagicLinkCodeRepository.Upsert` (the code to dispatch). -/
structure MagicLinkUpsertOutput where
  code : String
deriving DecidableEq, Repr

/-- Events of a passwordless flow: the account lookup, the account-store and
magic-link-store writes, the notification dispatch, and the transaction
outcome. -/
inductive PwlEv where
  | getAccount
  | createAccount (accountId : String) (isFirstAccess : Bool)
  | upsertMagicLink (accountId : String) (isFirstAccess : Bool)
  | sendCode (dest code : String)
  | rollback
  | commit
deriving DecidableEq, Repr

/-- Result of a passwordless flow: the returned error (if any), whether the
transaction committed, and the event trace. -/
structure PwlOut where
  errMsg : Option String
  committed : Bool
  events : List PwlEv
deriving DecidableEq, Repr

/-- Oracle for the calls of `CreateFromEmailProvider`: outer `none` on the
lookup means the store call errors, `some none` means no account with that
email exists. -/
structure EmailFlowEnv where
  beginOk : Bool
  getByEmail : Option (Option GetAccountByEmailOutput)
  createAccountId : Option String
  upsertResult : Option MagicLinkUpsertOutput
  sendOk : Bool
deriving Repr

/-- Oracle for the calls of `CreateFromPhoneProvider`. -/
structure PhoneFlowEnv where
  beginOk : Bool
  getByPhone : Option (Option GetAccountByPhoneOutput)
  createAccountId : Option String
  upsertResult : Option MagicLinkUpsertOutput
  sendOk : Bool
deriving Repr

/-- Shared tail of both passwordless flows: upsert the magic-link code for
the resolved account, dispatch it, and commit; any failure rolls back.
(The source returns the message "fail to send sms" on a notification failure
in both flows, the email flow included.) -/
def pwlFinish (dest : String) (upsertResult : Option MagicLinkUpsertOutput) (sendOk : Bool)
    (accountId : String) (isFirstAccess : Bool) (evs : List PwlEv) : PwlOut :=
  match upsertResult with
  | none =>
    ⟨some "fail to create account", false,
     evs ++ [PwlEv.upsertMagicLink accountId isFirstAccess, PwlEv.rollback]⟩
  | some m =>
    if sendOk = false then
      ⟨some "fail to send sms", false,
       evs ++ [PwlEv.upsertMagicLink accountId isFirstAccess,
               PwlEv.sendCode dest m.code, PwlEv.rollback]⟩
    else
      ⟨none, true,
       evs ++ [PwlEv.upsertMagicLink accountId isFirstAccess,
               PwlEv.sendCode dest m.code, PwlEv.commit]⟩

/-- Model of `AccountService.CreateFromEmailProvider`. -/
def CreateFromEmailProvider (email : String) (env : EmailFlowEnv) : PwlOut :=
  if env.beginOk = false then ⟨some "fail to create transaction", false, []⟩
  else
    match env.getByEmail with
    | none => ⟨some "fail to get account", false, [PwlEv.getAccount, PwlEv.rollback]⟩
    | some none =>
      match env.createAccountId with
      | none => ⟨some "fail to create account", false, [PwlEv.getAccount, PwlEv.rollback]⟩
      | some newId =>
        pwlFinish email env.upsertResult env.sendOk newId true
          [PwlEv.getAccount, PwlEv.createAccount newId true]
    | some (some existent) =>
      pwlFinish email env.upsertResult env.sendOk existent.accountId false
        [PwlEv.getAccount]

/-- Model of `AccountService.CreateFromPhoneProvider`. -/
def CreateFromPhoneProvider (countryCode number : String) (env : PhoneFlowEnv) : PwlOut :=
  if env.beginOk = false then ⟨some "fail to create transaction", false, []⟩
  else
    match env.getByPhone with
    | none => ⟨some "fail to get account", false, [PwlEv.getAccount, PwlEv.rollback]⟩
    | some none =>
      match env.createAccountId with
      | none => ⟨some "fail to create account", false, [PwlEv.getAccount, PwlEv.rollback]⟩
      | some newId =>
        pwlFinish (countryCode ++ number) env.upsertResult env.sendOk newId true
          [PwlEv.getAccount, PwlEv.createAccount newId true]
    | some (some existent) =>
      pwlFinish (countryCode ++ number) env.upsertResult env.sendOk existent.accountId false
        [PwlEv.getAccount]

/-- A store write of a passwordless flow (account creation or magic-link
upsert). -/
def isPwlWrite : PwlEv → Bool
  | PwlEv.createAccount _ _ => true
  | PwlEv.upsertMagicLink _ _ => true
  | _ => false

/-- The writes of a passwordless flow that become visible to later lookups:
writes performed inside the transaction are visible only if it committed. -/
def visiblePwlWrites (o : PwlOut) : List PwlEv :=
  if o.committed then o.events.filter isPwlWrite else []

/-! ## ExchangeCode -/

/-- A magic-link code record, per the data model: account id, code value,
first-access flag. -/
structure MagicLinkCode where
  accountId : String
  code : String
  isFirstAccess : Bool
deriving DecidableEq, Repr

/-- Modelled from the spec: the magic-link store implementation is not among
the sources (only the repository contract is); per the store contract,
`get(accountId, code) → record|absent` is a pure lookup on the store state. -/
def magicLinkGet (st : List MagicLinkCode) (accountId code : String) :
    Option MagicLinkCode :=
  st.find? fun m => m.accountId = accountId ∧ m.code = code

/-- Oracle for the infrastructure outcomes of `ExchangeCode`. -/
structure ExchangeEnv where
  beginOk : Bool
  magicGetErr : Bool
deriving DecidableEq, Repr

/-- Model of `AccountService.ExchangeCode`: look the code up, fail with
"magic link code doesn't exist" when absent, otherwise commit the
transaction and call credential issuance with `refresh = true`.  The flow
performs no write to the magic-link store, so the returned store state is
the input state on every path. -/
def ExchangeCode (st : List MagicLinkCode) (accountId code : String)
    (env : ExchangeEnv) (genv : GenAuthEnv) :
    Outcome AuthOutput × List MagicLinkCode :=
  if env.beginOk = false then (Outcome.err "fail to create transaction", st)
  else if env.magicGetErr then (Outcome.err "fail to get account", st)
  else
    match magicLinkGet st accountId code with
    | none => (Outcome.err "magic link code doesn't exist", st)
    | some _ => (genAuthOutput true genv, st)

/-! ## RefreshToken -/

/-- Events of the `RefreshToken` flow. -/
inductive RefreshEv where
  | getRefreshToken
  | createRefreshToken
  | genAccess
  | rollback
  | commit
deriving DecidableEq, Repr

/-- Modelled from the spec: the refresh-token store implementation is not
among the sources (only the repository contract is); per the store contract,
`exists(accountId, token) → bool` checks membership of the pair in the store
state. -/
def refreshTokenGet (st : List (String × String)) (accountId token : String) : Bool :=
  st.contains (accountId, token)

/-- Oracle for the infrastructure outcomes of `RefreshToken`. -/
structure RefreshEnv where
  beginOk : Bool
  getErr : Bool
  genAccess : Option GenAccessOutput
deriving Repr

/-- Model of `AccountService.RefreshToken`: verify the refresh token exists for the
account, fail with "refresh token doesn't exist" otherwise, then mint a new
access token and commit.  The flow never writes to the refresh-token store,
so the returned store state is the input state on every path. -/
def RefreshToken (st : List (String × String)) (accountId refreshToken : String)
    (env : RefreshEnv) :
    Outcome RefreshAccountTokenOutput × List (String × String) × List RefreshEv :=
  if env.beginOk = false then
    (Outcome.err "fail to create transaction", st, [])
  else if env.getErr then
    (Outcome.err "fail to get account", st, [RefreshEv.getRefreshToken, RefreshEv.rollback])
  else if refreshTokenGet st accountId refreshToken = false then
    (Outcome.err "refresh token doesn't exist", st,
     [RefreshEv.getRefreshToken, RefreshEv.rollback])
  else
    match env.genAccess with
    | none =>
      (Outcome.err "fail to generate access token", st,
       [RefreshEv.getRefreshToken, RefreshEv.genAccess, RefreshEv.rollback])
    | some access =>
      (Outcome.ok ⟨access.accessToken, access.expiresAt⟩, st,
       [RefreshEv.getRefreshToken, RefreshEv.genAccess, RefreshEv.commit])

/-! ## Claim theorems -/

/-- C1: the claim states that whenever the candidate identity set contains an
identity with the event's (provider type, subject id), resolution returns that
identity's account id, with precedence over a same-email match.  Evaluation at
a failing input: the candidate set holds the FACEBOOK same-email identity of
account A1 first and the GOOGLE/g1 identity of account A2 second; because the
scan's match slots are initialised with Go `new(...)` (non-nil pointers to
zero values), the loop's break condition is already true after the first
element, the GOOGLE/g1 identity is never examined, and resolution fails with
"fail to relate account" instead of returning A2. -/
theorem c1_provider_match_not_first_fails :
    resolveRelated "g1" "GOOGLE" "a@x.com"
      [⟨"A1", "f9", "FACEBOOK", "a@x.com"⟩, ⟨"A2", "g1", "GOOGLE", "old@x.com"⟩] = "" ∧
    (createFromExternal "GOOGLE"
      { exchangeCode := some ⟨"acc", "ref", 7, ["s"]⟩,
        hasRequiredScopes := fun _ => true,
        getUserData := some ⟨"g1", "a@x.com", true⟩,
        getManyByProvider := some
          [⟨"A1", "f9", "FACEBOOK", "a@x.com"⟩, ⟨"A2", "g1", "GOOGLE", "old@x.com"⟩],
        createAccountId := none }
      ⟨none, none, true⟩).1 = Outcome.err "fail to relate account" :=
  ⟨by decide, by decide⟩

/-- C2: the claim states that a candidate with the same email under a
different provider type (and no identity under the event's provider type)
links to that candidate's account.  Evaluation at a failing input: a single
FACEBOOK identity with the event's email.  After the scan, `sameProvider`
still holds the non-nil `new(...)` pointer to the zero value, so the guard
`sameProvider == nil` of the same-email rule is always false, the rule never
fires, `accountId` stays `""`, and the flow fails with "fail to relate
account" instead of returning A1. -/
theorem c2_email_link_never_fires :
    resolveRelated "g1" "GOOGLE" "a@x.com"
      [⟨"A1", "f1", "FACEBOOK", "a@x.com"⟩] = "" ∧
    (createFromExternal "GOOGLE"
      { exchangeCode := some ⟨"acc", "ref", 7, ["s"]⟩,
        hasRequiredScopes := fun _ => true,
        getUserData := some ⟨"g1", "a@x.com", true⟩,
        getManyByProvider := some [⟨"A1", "f1", "FACEBOOK", "a@x.com"⟩],
        createAccountId := none }
      ⟨none, none, true⟩).1 = Outcome.err "fail to relate account" :=
  ⟨by decide, by decide⟩

/-- C3: the claim states that credential issuance either returns both
credentials and commits or fails with a generic issuance error and rolls
back.  In the source both `wg.Done()` calls are `defer`red in `genAuthOutput`
itself, so they can only run after the function returns, which is blocked on
`wg.Wait()`: every call diverges and neither of the two claimed outcomes is
ever produced (no commit, no rollback, no result). -/
theorem c3_issuance_has_no_outcome (refresh : Bool) (env : GenAuthEnv) :
    genAuthOutput refresh env = Outcome.diverges := by
  cases refresh <;> rfl

/-- C4: the claim states that every `genAuthOutput` call terminates because
each `wg.Add(1)` is matched by a `wg.Done()` that runs before `wg.Wait()`
returns.  In the source the `Done` calls are deferred to the end of
`genAuthOutput` itself, so the number of `Done` calls that can execute before
`Wait` is zero, strictly below the number of `Add(1)` calls, and the call
never returns. -/
theorem c4_waitgroup_deadlock (refresh : Bool) (env : GenAuthEnv) :
    wgDoneCountBeforeWait refresh < wgAddCount refresh ∧
    genAuthOutput refresh env = Outcome.diverges := by
  cases refresh <;> exact ⟨by decide, rfl⟩

/-- C5: the claim states that after one successful exchange of a magic-link
code, a second exchange with the same pair fails with magic-link-not-found.
Evaluation at a failing input: store holding the code (A, C).  The first
exchange finds the code, leaves the store unchanged (the flow performs no
magic-link-store write), and the second exchange again gets past the
not-found check into credential issuance (outcome `diverges`, the issuance
deadlock) instead of failing with "magic link code doesn't exist". -/
theorem c5_code_never_consumed :
    (ExchangeCode [⟨"A", "C", false⟩] "A" "C" ⟨true, false⟩ ⟨none, none, true⟩).2
      = [⟨"A", "C", false⟩] ∧
    (ExchangeCode
        (ExchangeCode [⟨"A", "C", false⟩] "A" "C" ⟨true, false⟩ ⟨none, none, true⟩).2
        "A" "C" ⟨true, false⟩ ⟨none, none, true⟩).1 = Outcome.diverges :=
  ⟨by decide, by decide⟩

/-- C9: the claim states that the candidate scan keeps the first same-email
and first same-provider match it encounters and stops early exactly once both
have been found.  In fact the scan never examines more than the first
element: both slots start as non-nil `new(...)` pointers, so the break
condition holds after every first iteration.  First conjunct: for every
input, the scan of `v :: rest` equals the scan of `[v]` (`rest` is never
looked at).  Second conjunct: on a list whose first element matches nothing
and whose second element is a same-email match, the scan stops after the
first element with both slots still holding the zero value, recording no
match at all. -/
theorem c9_scan_stops_after_first_element :
    (∀ (pid pty em : String) (a b v : GetManyAccountsByProviderOutput)
        (rest : List GetManyAccountsByProviderOutput),
      scanRelated pid pty em (some a) (some b) (v :: rest) =
        scanRelated pid pty em (some a) (some b) [v]) ∧
    scanRelated "g1" "GOOGLE" "a@x.com" (some zeroGetManyRec) (some zeroGetManyRec)
      [⟨"A1", "f9", "FACEBOOK", "other@x.com"⟩, ⟨"A2", "f8", "FACEBOOK", "a@x.com"⟩]
      = (some zeroGetManyRec, some zeroGetManyRec) := by
  constructor
  · intro pid pty em a b v rest
    by_cases h1 : v.email = em <;>
      by_cases h2 : v.providerId = pid ∧ v.providerType = pty <;>
        simp [scanRelated, h1, h2]
  · decide

/-- C8: when the identity lookup returns an empty candidate set, the flow
creates a new Account together with its SignInIdentity in one account-store
call (`createCall` carries the full payload: the account email plus exactly
one sign-in provider built from the provider profile and the exchanged
tokens), and proceeds to credential issuance with first-access = true. -/
theorem c8_empty_candidates_create_account_and_identity
    (providerType : String) (env : ExternalEnv) (genv : GenAuthEnv)
    (ec : ExchangeCodeOutput) (pd : ProviderUserData) (newId : String)
    (h1 : env.exchangeCode = some ec)
    (h2 : env.hasRequiredScopes ec.scopes = true)
    (h3 : env.getUserData = some pd)
    (h4 : pd.isEmailVerified = true)
    (h5 : env.getManyByProvider = some [])
    (h6 : env.createAccountId = some newId) :
    (createFromExternal providerType env genv).2 =
      [FlowEv.stExchanged, FlowEv.stScopesOk, FlowEv.stProfileOk,
       FlowEv.stIdentitiesLoaded,
       FlowEv.createCall pd.email
         [⟨pd.id, providerType, ec.accessToken, some ec.refreshToken, ec.expiresAt⟩],
       FlowEv.stResolved newId true,
       FlowEv.issueCall newId true true] := by
  simp [createFromExternal, h1, h2, h3, h4, h5, h6]

/-- Witness for C8 at a concrete sign-in event with no matching identity. -/
theorem c8_witness :
    (createFromExternal "GOOGLE"
      { exchangeCode := some ⟨"acc", "ref", 7, ["s"]⟩,
        hasRequiredScopes := fun _ => true,
        getUserData := some ⟨"g1", "a@x.com", true⟩,
        getManyByProvider := some [],
        createAccountId := some "NEW" }
      ⟨none, none, true⟩).2 =
      [FlowEv.stExchanged, FlowEv.stScopesOk, FlowEv.stProfileOk,
       FlowEv.stIdentitiesLoaded,
       FlowEv.createCall "a@x.com" [⟨"g1", "GOOGLE", "acc", some "ref", 7⟩],
       FlowEv.stResolved "NEW" true,
       FlowEv.issueCall "NEW" true true] :=
  c8_empty_candidates_create_account_and_identity "GOOGLE" _ _
    ⟨"acc", "ref", 7, ["s"]⟩ ⟨"g1", "a@x.com", true⟩ "NEW" rfl rfl rfl rfl rfl rfl

/-- C10: when no refresh token matching (account id, token) is in the store,
the call fails with "refresh token doesn't exist" and performs only a read
followed by a rollback, leaving the store untouched; when the token exists
(and the token adapter succeeds), the call returns the newly minted access
token with its expiry and its trace contains no refresh-token creation. -/
theorem c10_refresh_validation (st : List (String × String))
    (accountId token : String) (env : RefreshEnv)
    (hb : env.beginOk = true) (hg : env.getErr = false) :
    (refreshTokenGet st accountId token = false →
      RefreshToken st accountId token env =
        (Outcome.err "refresh token doesn't exist", st,
         [RefreshEv.getRefreshToken, RefreshEv.rollback])) ∧
    (∀ a, env.genAccess = some a → refreshTokenGet st accountId token = true →
      RefreshToken st accountId token env =
        (Outcome.ok ⟨a.accessToken, a.expiresAt⟩, st,
         [RefreshEv.getRefreshToken, RefreshEv.genAccess, RefreshEv.commit])) := by
  constructor
  · intro h
    simp [RefreshToken, hb, hg, h]
  · intro a ha h
    simp [RefreshToken, hb, hg, h, ha]

/-- Witness for C10: a store holding only (A, tok); refreshing with a bad
token fails with refresh-token-not-found and only reads; refreshing with the
stored token returns the minted access token and creates nothing. -/
theorem c10_witness :
    RefreshToken [("A", "tok")] "A" "bad" ⟨true, false, some ⟨"at", 9⟩⟩ =
      (Outcome.err "refresh token doesn't exist", [("A", "tok")],
       [RefreshEv.getRefreshToken, RefreshEv.rollback]) ∧
    RefreshToken [("A", "tok")] "A" "tok" ⟨true, false, some ⟨"at", 9⟩⟩ =
      (Outcome.ok ⟨"at", 9⟩, [("A", "tok")],
       [RefreshEv.getRefreshToken, RefreshEv.genAccess, RefreshEv.commit]) :=
  ⟨(c10_refresh_validation [("A", "tok")] "A" "bad" ⟨true, false, some ⟨"at", 9⟩⟩
      rfl rfl).1 (by decide),
   (c10_refresh_validation [("A", "tok")] "A" "tok" ⟨true, false, some ⟨"at", 9⟩⟩
      rfl rfl).2 ⟨"at", 9⟩ rfl (by decide)⟩

/-- C7: a passwordless request commits exactly when it returns no error;
commit requires transaction start, account lookup, magic-link upsert and
notification dispatch to succeed (and account creation, when the lookup
found no account); and whenever the transaction does not commit, none of the
flow's writes — the account created in the same call included — is visible
to later lookups.  Stated for both the email and the phone flow. -/
theorem c7_passwordless_atomicity (email countryCode number : String)
    (env : EmailFlowEnv) (penv : PhoneFlowEnv) :
    (((CreateFromEmailProvider email env).errMsg = none ↔
        (CreateFromEmailProvider email env).committed = true) ∧
      ((CreateFromEmailProvider email env).committed = true →
        env.beginOk = true ∧ env.getByEmail ≠ none ∧ env.upsertResult ≠ none ∧
        env.sendOk = true ∧
        (env.getByEmail = some none → env.createAccountId ≠ none)) ∧
      ((CreateFromEmailProvider email env).committed = false →
        visiblePwlWrites (CreateFromEmailProvider email env) = [])) ∧
    (((CreateFromPhoneProvider countryCode number penv).errMsg = none ↔
        (CreateFromPhoneProvider countryCode number penv).committed = true) ∧
      ((CreateFromPhoneProvider countryCode number penv).committed = true →
        penv.beginOk = true ∧ penv.getByPhone ≠ none ∧ penv.upsertResult ≠ none ∧
        penv.sendOk = true ∧
        (penv.getByPhone = some none → penv.createAccountId ≠ none)) ∧
      ((CreateFromPhoneProvider countryCode number penv).committed = false →
        visiblePwlWrites (CreateFromPhoneProvider countryCode number penv) = [])) := by
  constructor
  · rcases env with ⟨bOk, gbe, cai, ur, sOk⟩
    cases bOk <;> rcases gbe with _ | (_ | ex) <;> rcases cai with _ | newId <;>
      rcases ur with _ | m <;> cases sOk <;>
        simp [CreateFromEmailProvider, pwlFinish, visiblePwlWrites, isPwlWrite]
  · rcases penv with ⟨bOk, gbp, cai, ur, sOk⟩
    cases bOk <;> rcases gbp with _ | (_ | ex) <;> rcases cai with _ | newId <;>
      rcases ur with _ | m <;> cases sOk <;>
        simp [CreateFromPhoneProvider, pwlFinish, visiblePwlWrites, isPwlWrite]

/-- Witness for C7: a notification failure after account creation leaves no
visible write, in both flows. -/
theorem c7_witness :
    visiblePwlWrites (CreateFromEmailProvider "a@x.com"
      ⟨true, some none, some "NEW", some ⟨"C1"⟩, false⟩) = [] ∧
    visiblePwlWrites (CreateFromPhoneProvider "55" "999"
      ⟨true, some none, some "NEW", some ⟨"C1"⟩, false⟩) = [] :=
  ⟨(c7_passwordless_atomicity "a@x.com" "55" "999"
      ⟨true, some none, some "NEW", some ⟨"C1"⟩, false⟩
      ⟨true, some none, some "NEW", some ⟨"C1"⟩, false⟩).1.2.2 (by decide),
   (c7_passwordless_atomicity "a@x.com" "55" "999"
      ⟨true, some none, some "NEW", some ⟨"C1"⟩, false⟩
      ⟨true, some none, some "NEW", some ⟨"C1"⟩, false⟩).2.2.2 (by decide)⟩


/-- On every input, the step tags of the external sign-in flow's trace form a
prefix of the canonical step order. -/
theorem createFromExternal_step_order (pty : String) (env : ExternalEnv)
    (genv : GenAuthEnv) :
    stepTags (createFromExternal pty env genv).2 <+: canonicalSteps := by
  rcases env with ⟨exc, hasScopes, gud, gmb, cai⟩
  rcases exc with _ | ec
  · exact ⟨canonicalSteps, rfl⟩
  by_cases hs : hasScopes ec.scopes = false
  · refine ⟨[1, 2, 3, 4, 5], ?_⟩
    simp [createFromExternal, hs, stepTags, tagOfEv, canonicalSteps]
  rcases gud with _ | pd
  · refine ⟨[2, 3, 4, 5], ?_⟩
    simp [createFromExternal, hs, stepTags, tagOfEv, canonicalSteps]
  by_cases hv : pd.isEmailVerified = false
  · refine ⟨[2, 3, 4, 5], ?_⟩
    simp [createFromExternal, hs, hv, stepTags, tagOfEv, canonicalSteps]
  rcases gmb with _ | (_ | ⟨v, vs⟩)
  · refine ⟨[3, 4, 5], ?_⟩
    simp [createFromExternal, hs, hv, stepTags, tagOfEv, canonicalSteps]
  · rcases cai with _ | newId
    · refine ⟨[4, 5], ?_⟩
      simp [createFromExternal, hs, hv, stepTags, tagOfEv, canonicalSteps]
    · refine ⟨[], ?_⟩
      simp [createFromExternal, hs, hv, stepTags, tagOfEv, canonicalSteps]
  · by_cases ha : resolveRelated pd.id pty pd.email (v :: vs) = ""
    · refine ⟨[4, 5], ?_⟩
      simp [createFromExternal, hs, hv, ha, stepTags, tagOfEv, canonicalSteps]
    · refine ⟨[], ?_⟩
      simp [createFromExternal, hs, hv, ha, stepTags, tagOfEv, canonicalSteps]

/-- Every error return of the external sign-in flow has the rollback as the
last event of its trace. -/
theorem createFromExternal_err_rollback (pty : String) (env : ExternalEnv)
    (genv : GenAuthEnv) (msg : String)
    (h : (createFromExternal pty env genv).1 = Outcome.err msg) :
    (createFromExternal pty env genv).2.getLast? = some FlowEv.rollback := by
  rcases env with ⟨exc, hasScopes, gud, gmb, cai⟩
  rcases exc with _ | ec
  · rfl
  by_cases hs : hasScopes ec.scopes = false
  · simp [createFromExternal, hs, List.getLast?]
  rcases gud with _ | pd
  · simp [createFromExternal, hs, List.getLast?]
  by_cases hv : pd.isEmailVerified = false
  · simp [createFromExternal, hs, hv, List.getLast?]
  rcases gmb with _ | (_ | ⟨v, vs⟩)
  · simp [createFromExternal, hs, hv, List.getLast?]
  · rcases cai with _ | newId
    · simp [createFromExternal, hs, hv, List.getLast?]
    · simp [createFromExternal, genAuthOutput, wgAddCount, wgDoneCountBeforeWait,
        hs, hv] at h
  · by_cases ha : resolveRelated pd.id pty pd.email (v :: vs) = ""
    · simp [createFromExternal, hs, hv, ha, List.getLast?]
    · simp [createFromExternal, genAuthOutput, wgAddCount, wgDoneCountBeforeWait,
        hs, hv, ha] at h

/-- A scope-check failure returns the "missing scopes" error and its trace
holds no account-store write. -/
theorem createFromExternal_scopes_fail (pty : String) (env : ExternalEnv)
    (genv : GenAuthEnv) (ec : ExchangeCodeOutput)
    (h : env.exchangeCode = some ec)
    (hs : env.hasRequiredScopes ec.scopes = false) :
    (createFromExternal pty env genv).1 = Outcome.err "missing scopes" ∧
    hasCreateCall (createFromExternal pty env genv).2 = false := by
  rcases env with ⟨exc, hasScopesF, gud, gmb, cai⟩
  obtain rfl : exc = some ec := h
  replace hs : hasScopesF ec.scopes = false := hs
  constructor <;> simp [createFromExternal, hs, hasCreateCall]

/-- C6: the claim states that a failure at any of the six steps — credential
issuance included — rolls back the transaction opened at flow start and
returns an error immediately.  Evaluation at a failing input: every step up
to account resolution succeeds and the access-token mint inside credential
issuance fails (the token adapter errors).  Because both `wg.Done()` calls
in `genAuthOutput` are deferred to the function's own exit, `wg.Wait()`
never returns and the rollback-and-return statements after it are
unreachable: the invocation diverges, returns no error, and its trace
contains no rollback event — the issuance-step failure neither rolls back
nor reports.  (The step ordering itself, and the rollback-on-error
discipline of the five earlier steps, do hold: see
`createFromExternal_step_order`, `createFromExternal_err_rollback` and
`createFromExternal_scopes_fail`.) -/
theorem c6_issuance_failure_no_rollback_no_error :
    createFromExternal "GOOGLE"
      { exchangeCode := some ⟨"acc", "ref", 7, ["s"]⟩,
        hasRequiredScopes := fun _ => true,
        getUserData := some ⟨"g1", "a@x.com", true⟩,
        getManyByProvider := some [],
        createAccountId := some "NEW" }
      ⟨some ⟨"rt"⟩, none, true⟩ =
      (Outcome.diverges,
       [FlowEv.stExchanged, FlowEv.stScopesOk, FlowEv.stProfileOk,
        FlowEv.stIdentitiesLoaded,
        FlowEv.createCall "a@x.com" [⟨"g1", "GOOGLE", "acc", some "ref", 7⟩],
        FlowEv.stResolved "NEW" true,
        FlowEv.issueCall "NEW" true true]) := by
  decide
